import Mathlib

/-!
Verification of the cookie-consent validation core of the `ttt` test suite.

Shallow embedding of `tests/utils/cookie.validator.ts`, `tests/config/cookie.config.ts`
(the expectation registry), `tests/types/cookie.types.ts` and the registry-consuming
branch of `tests/workflows/cookie-customization.workflow.ts`.

Modelling conventions:
- a browser cookie is the read-only triple of name, domain and value that the code reads;
- TypeScript `String.prototype.includes(pat)` is substring containment, embedded as
  containment of the pattern's character list in the value's character list;
- the asynchronous cookie source `page.context().cookies()` is embedded as a function
  from the zero-based fetch index to the snapshot the browser returns on that fetch,
  so the k-th fetch performed by the polling loop yields `source (k - 1)`;
- the polling loop of `waitForConsentCookie` counts its observable effects: the number
  of snapshot fetches and the number of `page.waitForTimeout(1000)` calls (waits).
-/

/-- Browser cookie as read by the validation core: `{name, domain, value}`. -/
structure Cookie where
  name : String
  domain : String
  value : String
deriving DecidableEq, Repr

/-- `CookieConfig.CONSENT_COOKIE_NAME` from `tests/config/cookie.config.ts`. -/
def CONSENT_COOKIE_NAME : String := "cookieyes-consent"

/-- `CookieConfig.WWW_DOMAIN` from `tests/config/cookie.config.ts`. -/
def WWW_DOMAIN : String := ".www.thethinkingtraveller.com"

/-- `CookieConfig.BASE_DOMAIN` from `tests/config/cookie.config.ts`. -/
def BASE_DOMAIN : String := ".thethinkingtraveller.com"

/-- TypeScript `s.includes(pat)`: `pat` occurs as a contiguous substring of `s`. -/
def strIncludes (s pat : String) : Bool := decide (pat.data <:+: s.data)

/-- The template literal `` `${c.name}@${c.domain}` `` used throughout the validator. -/
def cookieKey (c : Cookie) : String := c.name ++ "@" ++ c.domain

/-- Interface `ExpectedCookies` from `tests/types/cookie.types.ts`:
`requiredCookies: string[]` and the optional field `optionalCookies?: string[]`,
embedded as an `Option`. -/
structure ExpectedCookies where
  requiredCookies : List String
  optionalCookies : Option (List String)
deriving DecidableEq, Repr

/-- Interface `CookieValidationResult` from `tests/types/cookie.types.ts`. -/
structure CookieValidationResult where
  isValid : Bool
  missingRequired : List String
  foundOptional : Nat
  totalOptional : Nat
deriving DecidableEq, Repr

/-- Interface `ConsentCookieContent` from `tests/types/cookie.types.ts`. -/
structure ConsentCookieContent where
  hasYesConsent : Bool
  hasYesAction : Bool
  hasYesNecessary : Bool
deriving DecidableEq, Repr

/-- `CookieValidator.validateCookies` from `tests/utils/cookie.validator.ts`
(lines 92-155).  The `for...of` loop pushing misses becomes `List.filter`
(same elements, same order); the `foundOptional` counter becomes `List.countP`;
`expectations.optionalCookies?.length || 0` is embedded with the JavaScript
falsiness of `0` made explicit. -/
def validateCookies (cookies : List Cookie) (expectations : ExpectedCookies) : CookieValidationResult :=
  let cookieKeys := cookies.map cookieKey
  let missingRequired := expectations.requiredCookies.filter (fun r => !(cookieKeys.contains r))
  let foundOptional :=
    match expectations.optionalCookies with
    | none => 0
    | some opts => opts.countP (fun o => cookieKeys.contains o)
  let totalOptional :=
    match expectations.optionalCookies with
    | none => 0
    | some opts => if opts.length == 0 then 0 else opts.length
  { isValid := missingRequired.length == 0
    missingRequired := missingRequired
    foundOptional := foundOptional
    totalOptional := totalOptional }

/-- `CookieValidator.validateConsentCookieContent` from `tests/utils/cookie.validator.ts`
(lines 159-191): `.find` takes the first cookie named `cookieyes-consent`; without one
every flag is `false`. -/
def validateConsentCookieContent (cookies : List Cookie) : ConsentCookieContent :=
  match cookies.find? (fun cookie => cookie.name == CONSENT_COOKIE_NAME) with
  | none => { hasYesConsent := false, hasYesAction := false, hasYesNecessary := false }
  | some consentCookie =>
      { hasYesConsent := strIncludes consentCookie.value "consent:yes"
        hasYesAction := strIncludes consentCookie.value "action:yes"
        hasYesNecessary := strIncludes consentCookie.value "necessary:yes" }

/-- The `consentCookieSet` predicate inside `waitForConsentCookie` (lines 53-58):
some cookie is named `cookieyes-consent` and its value contains `consent:yes`. -/
def consentCookieSet (cookies : List Cookie) : Bool :=
  cookies.any (fun cookie => cookie.name == CONSENT_COOKIE_NAME && strIncludes cookie.value "consent:yes")

/-- Observable outcome of one run of the polling loop: the returned snapshot
(`cookiesAfter`), the number of cookie-snapshot fetches performed, and the number
of `page.waitForTimeout(1000)` calls performed. -/
structure PollResult where
  cookies : List Cookie
  fetches : Nat
  waits : Nat
deriving DecidableEq, Repr

/-- Body of the do-while loop of `CookieValidator.waitForConsentCookie`
(lines 41-79), with `remaining = maxRetries - retryCount` as the recursion
measure.  Correspondence with the source, entering the body with counter
`retryCount`:
- fetch `cookiesAfter` (here `source fetched`, the next snapshot);
- `if (consentCookieSet || retryCount >= maxRetries) break` — the second
  disjunct is `remaining = 0`;
- otherwise wait 1000 ms and increment; `while (retryCount < maxRetries)`
  re-enters the body exactly when the incremented counter is still below
  `maxRetries`, i.e. when `remaining ≥ 2`; with `remaining = 1` the loop
  exits after the wait, returning the snapshot just fetched. -/
def pollAux (source : Nat → List Cookie) (remaining fetched waited : Nat) : PollResult :=
  let cookiesAfter := source fetched
  if consentCookieSet cookiesAfter then
    { cookies := cookiesAfter, fetches := fetched + 1, waits := waited }
  else
    match remaining with
    | 0 => { cookies := cookiesAfter, fetches := fetched + 1, waits := waited }
    | 1 => { cookies := cookiesAfter, fetches := fetched + 1, waits := waited + 1 }
    | r + 2 => pollAux source (r + 1) (fetched + 1) (waited + 1)

/-- `CookieValidator.waitForConsentCookie` (lines 27-84): start with
`retryCount = 0`, no fetches and no waits performed yet. -/
def waitForConsentCookie (source : Nat → List Cookie) (maxRetries : Nat) : PollResult :=
  pollAux source maxRetries 0 0

/-- The registry `CookieConfig.COOKIE_EXPECTATIONS` from
`tests/config/cookie.config.ts` (lines 9-78), as an association list; key order
is the object literal's declaration order (keys are distinct, so lookup order
is immaterial). -/
def COOKIE_EXPECTATIONS : List (String × ExpectedCookies) :=
  [ ("chromium",
      { requiredCookies := [CONSENT_COOKIE_NAME ++ "@" ++ WWW_DOMAIN, "_clck" ++ "@" ++ BASE_DOMAIN]
        optionalCookies := some
          [ "tttdemorepath-_zldp" ++ "@" ++ BASE_DOMAIN
          , "tttdemorepath-_zldt" ++ "@" ++ BASE_DOMAIN
          , "_uetsid" ++ "@" ++ BASE_DOMAIN
          , "_uetvid" ++ "@" ++ BASE_DOMAIN ] })
  , ("webkit",
      { requiredCookies := [CONSENT_COOKIE_NAME ++ "@" ++ WWW_DOMAIN, "_clck" ++ "@" ++ BASE_DOMAIN]
        optionalCookies := some
          [ "tttdemorepath-_zldp" ++ "@" ++ BASE_DOMAIN
          , "tttdemorepath-_zldt" ++ "@" ++ BASE_DOMAIN
          , "_uetsid" ++ "@" ++ BASE_DOMAIN
          , "_uetvid" ++ "@" ++ BASE_DOMAIN ] })
  , ("firefox",
      { requiredCookies := [CONSENT_COOKIE_NAME ++ "@" ++ WWW_DOMAIN, "_clck" ++ "@" ++ BASE_DOMAIN]
        optionalCookies := some
          [ "tttdemorepath-_zldp" ++ "@" ++ BASE_DOMAIN
          , "tttdemorepath-_zldt" ++ "@" ++ BASE_DOMAIN
          , "_uetsid" ++ "@" ++ BASE_DOMAIN
          , "_uetvid" ++ "@" ++ BASE_DOMAIN ] })
  , ("Microsoft Edge",
      { requiredCookies := [CONSENT_COOKIE_NAME ++ "@" ++ WWW_DOMAIN, "_clck" ++ "@" ++ BASE_DOMAIN]
        optionalCookies := some
          [ "tttdemorepath-_zldp" ++ "@" ++ BASE_DOMAIN
          , "tttdemorepath-_zldt" ++ "@" ++ BASE_DOMAIN
          , "_uetsid" ++ "@" ++ BASE_DOMAIN
          , "_uetvid" ++ "@" ++ BASE_DOMAIN ] })
  , ("Mobile Chrome",
      { requiredCookies := [CONSENT_COOKIE_NAME ++ "@" ++ WWW_DOMAIN, "_clck" ++ "@" ++ BASE_DOMAIN]
        optionalCookies := some
          [ "tttdemorepath-_zldp" ++ "@" ++ BASE_DOMAIN
          , "tttdemorepath-_zldt" ++ "@" ++ BASE_DOMAIN ] })
  , ("Mobile Safari",
      { requiredCookies := [CONSENT_COOKIE_NAME ++ "@" ++ WWW_DOMAIN, "_clck" ++ "@" ++ BASE_DOMAIN]
        optionalCookies := some
          [ "tttdemorepath-_zldp" ++ "@" ++ BASE_DOMAIN
          , "tttdemorepath-_zldt" ++ "@" ++ BASE_DOMAIN ] }) ]

/-- `CookieConfig.getExpectedCookies` (cookie.config.ts lines 80-82):
`COOKIE_EXPECTATIONS[projectName] || null` — the looked-up record when the key
is registered (records are objects, hence truthy), `null` otherwise. -/
def getExpectedCookies (projectName : String) : Option ExpectedCookies :=
  (COOKIE_EXPECTATIONS.find? (fun entry => entry.fst == projectName)).map Prod.snd

/-- Observable outcome of the workflow's private `validateCookies`
(`tests/workflows/cookie-customization.workflow.ts` lines 98-130): either the
registry lookup misses and the method logs a warning and returns without
validating, or validation runs and the first failing `expect` (if any) aborts
the test with its message. -/
inductive WorkflowOutcome where
  | skippedWithWarning (warning : String)
  | validated (result : CookieValidationResult) (firstFailure : Option String)
deriving DecidableEq, Repr

/-- First failing Playwright assertion raised by
`assertRequiredCookies` (workflow lines 134-161) followed by
`validateConsentCookie` (lines 165-195); a failing `expect` throws, so later
assertions never run. -/
def firstAssertionFailure (cookiesAfter : List Cookie) (exps : ExpectedCookies) : Option String :=
  let vr := validateCookies cookiesAfter exps
  match vr.missingRequired with
  | m :: _ => some ("Required cookie " ++ m ++ " should be present after customization")
  | [] =>
    if !consentCookieSet cookiesAfter then
      some "Consent cookie should be updated after customization"
    else
      let content := validateConsentCookieContent cookiesAfter
      if !content.hasYesConsent then some "Consent cookie should contain consent:yes"
      else if !content.hasYesAction then some "Consent cookie should contain action:yes"
      else if !content.hasYesNecessary then some "Consent cookie should contain necessary:yes"
      else none

/-- The workflow's private `validateCookies` (workflow lines 98-130): on a
registry miss it logs the warning and returns early; otherwise it validates
and asserts. -/
def workflowValidateCookies (projectName : String) (cookiesAfter : List Cookie) : WorkflowOutcome :=
  match getExpectedCookies projectName with
  | none => WorkflowOutcome.skippedWithWarning ("No validation rules defined for project: " ++ projectName)
  | some projectExpectations =>
      WorkflowOutcome.validated (validateCookies cookiesAfter projectExpectations)
        (firstAssertionFailure cookiesAfter projectExpectations)

/-- Eight-flag consent record as the spec's data model describes it
(spec section 3, `ConsentFlags`); written from the spec's words only, to compare
the spec's claimed decoder against the source decoder. -/
structure ConsentFlagsSpec where
  necessary : Bool
  functional : Bool
  analytics : Bool
  performance : Bool
  advertisement : Bool
  other : Bool
  consent : Bool
  action : Bool
deriving DecidableEq, Repr

/-- Decoder as the spec's words describe it (spec section 4.2): each of the eight
flags is literal substring containment of `key:yes` in the raw value; written
from the spec's words only, for comparison with `validateConsentCookieContent`. -/
def decodeConsentFlagsSpec (rawValue : String) : ConsentFlagsSpec :=
  { necessary := strIncludes rawValue "necessary:yes"
    functional := strIncludes rawValue "functional:yes"
    analytics := strIncludes rawValue "analytics:yes"
    performance := strIncludes rawValue "performance:yes"
    advertisement := strIncludes rawValue "advertisement:yes"
    other := strIncludes rawValue "other:yes"
    consent := strIncludes rawValue "consent:yes"
    action := strIncludes rawValue "action:yes" }

/-- Bridge: a snapshot with no cookie that is named `cookieyes-consent` with a value
containing `consent:yes` fails the loop's `consentCookieSet` test. -/
lemma consentCookieSet_eq_false {cookies : List Cookie}
    (h : ∀ c ∈ cookies, ¬(c.name = CONSENT_COOKIE_NAME ∧ strIncludes c.value "consent:yes" = true)) :
    consentCookieSet cookies = false := by
  rw [consentCookieSet, List.any_eq_false]
  intro c hc
  have hd := h c hc
  simp only [Bool.and_eq_true, beq_iff_eq]
  tauto

/-- Bridge: a snapshot holding a cookie named `cookieyes-consent` with a value
containing `consent:yes` passes the loop's `consentCookieSet` test. -/
lemma consentCookieSet_eq_true {cookies : List Cookie}
    (h : ∃ c ∈ cookies, c.name = CONSENT_COOKIE_NAME ∧ strIncludes c.value "consent:yes" = true) :
    consentCookieSet cookies = true := by
  rw [consentCookieSet, List.any_eq_true]
  obtain ⟨c, hc, h1, h2⟩ := h
  exact ⟨c, hc, by simp [h1, h2]⟩

/-- Exhaustion run of the loop body: when no future snapshot ever passes the
consent test and at least one retry remains, the body fetches once per remaining
retry, waits after every fetch (the final one included) and returns the last
snapshot fetched. -/
lemma pollAux_never_committed (source : Nat → List Cookie)
    (hsrc : ∀ n, consentCookieSet (source n) = false) :
    ∀ remaining, 1 ≤ remaining → ∀ fetched waited,
      pollAux source remaining fetched waited =
        { cookies := source (fetched + (remaining - 1))
          fetches := fetched + remaining
          waits := waited + remaining } := by
  intro remaining
  induction remaining using Nat.strong_induction_on with
  | _ remaining ih =>
    intro h1 fetched waited
    match remaining, h1 with
    | 1, _ =>
      simp [pollAux, hsrc]
    | r + 2, _ =>
      rw [pollAux]
      simp only [hsrc, Bool.false_eq_true, if_false]
      rw [ih (r + 1) (by omega) (by omega)]
      have e1 : fetched + 1 + (r + 1 - 1) = fetched + (r + 2 - 1) := by omega
      have e2 : fetched + 1 + (r + 1) = fetched + (r + 2) := by omega
      have e3 : waited + 1 + (r + 1) = waited + (r + 2) := by omega
      rw [e1, e2, e3]

/-- Claim C5 (stated first as an anchor): with `maxRetries = 0` the engine still
performs exactly one fetch, returning that first snapshot and never waiting. -/
theorem C5_zero_budget_one_fetch (source : Nat → List Cookie) :
    waitForConsentCookie source 0 = { cookies := source 0, fetches := 1, waits := 0 } := by
  cases h : consentCookieSet (source 0) <;>
    simp [waitForConsentCookie, pollAux, h]

/-- Claim C9: for a source that never yields a committed consent cookie and any
`maxRetries = m ≥ 1`, the engine performs exactly `m` waits of 1000 ms — one after
every fetch, including one after the final fetch — before returning the last
snapshot; it does not return immediately after the last unsuccessful fetch. -/
theorem C9_exhaustion_one_wait_per_fetch (source : Nat → List Cookie) (m : Nat)
    (hm : 1 ≤ m)
    (hsrc : ∀ n, ∀ c ∈ source n,
      ¬(c.name = CONSENT_COOKIE_NAME ∧ strIncludes c.value "consent:yes" = true)) :
    waitForConsentCookie source m =
      { cookies := source (m - 1), fetches := m, waits := m } := by
  have h : ∀ n, consentCookieSet (source n) = false :=
    fun n => consentCookieSet_eq_false (hsrc n)
  rw [waitForConsentCookie, pollAux_never_committed source h m hm 0 0]
  simp

/-- Witness for C9 at `m = 1` and the empty cookie source. -/
theorem C9_witness :
    waitForConsentCookie (fun _ => ([] : List Cookie)) 1 =
      { cookies := [], fetches := 1, waits := 1 } :=
  C9_exhaustion_one_wait_per_fetch (fun _ => []) 1 (by decide)
    (by intro n c hc; exact absurd hc (List.not_mem_nil c))

/-- Claim C3: for a source that never yields a cookie named `cookieyes-consent`
whose value contains `consent:yes`, `waitForConsentCookie` with `maxRetries = 2`
performs exactly 2 fetches of the cookie snapshot (no third fetch) and returns
the second — i.e. last — snapshot fetched (fetch k reads `source (k - 1)`). -/
theorem C3_exhaustion_two_fetches (source : Nat → List Cookie)
    (hsrc : ∀ n, ∀ c ∈ source n,
      ¬(c.name = CONSENT_COOKIE_NAME ∧ strIncludes c.value "consent:yes" = true)) :
    (waitForConsentCookie source 2).fetches = 2 ∧
    (waitForConsentCookie source 2).cookies = source 1 := by
  have h : ∀ n, consentCookieSet (source n) = false :=
    fun n => consentCookieSet_eq_false (hsrc n)
  rw [waitForConsentCookie, pollAux_never_committed source h 2 (by omega) 0 0]
  exact ⟨rfl, rfl⟩

/-- Witness for C3 at the empty cookie source. -/
theorem C3_witness :
    (waitForConsentCookie (fun _ => ([] : List Cookie)) 2).fetches = 2 ∧
    (waitForConsentCookie (fun _ => ([] : List Cookie)) 2).cookies = [] :=
  C3_exhaustion_two_fetches (fun _ => [])
    (by intro n c hc; exact absurd hc (List.not_mem_nil c))

/-- Claim C4: for a source with no committed consent cookie on fetches 1 and 2
but a cookie named `cookieyes-consent` whose value contains `consent:yes` on
fetch 3, `waitForConsentCookie` with `maxRetries = 3` returns the attempt-3
snapshot immediately after that fetch (no further waiting), having performed
exactly 2 intervening waits. -/
theorem C4_convergence_on_third_fetch (source : Nat → List Cookie)
    (h1 : ∀ c ∈ source 0,
      ¬(c.name = CONSENT_COOKIE_NAME ∧ strIncludes c.value "consent:yes" = true))
    (h2 : ∀ c ∈ source 1,
      ¬(c.name = CONSENT_COOKIE_NAME ∧ strIncludes c.value "consent:yes" = true))
    (h3 : ∃ c ∈ source 2,
      c.name = CONSENT_COOKIE_NAME ∧ strIncludes c.value "consent:yes" = true) :
    waitForConsentCookie source 3 =
      { cookies := source 2, fetches := 3, waits := 2 } := by
  have e1 := consentCookieSet_eq_false h1
  have e2 := consentCookieSet_eq_false h2
  have e3 := consentCookieSet_eq_true h3
  rw [waitForConsentCookie]
  rw [pollAux]
  simp only [e1, Bool.false_eq_true, if_false]
  rw [show (3 : Nat) = 1 + 2 from rfl]
  rw [pollAux]
  simp only [e2, Bool.false_eq_true, if_false]
  rw [show (1 + 1 : Nat) = 0 + 2 from rfl]
  rw [pollAux]
  simp only [e3, if_true]

/-- Witness for C4: a source committing exactly on the third fetch. -/
theorem C4_witness :
    waitForConsentCookie
      (fun n => if n == 2
        then [{ name := "cookieyes-consent", domain := "d", value := "consent:yes" }]
        else ([] : List Cookie)) 3 =
      { cookies := [{ name := "cookieyes-consent", domain := "d", value := "consent:yes" }]
        fetches := 3
        waits := 2 } :=
  C4_convergence_on_third_fetch _ (by decide) (by decide) (by decide)

/-- Claim C1: `validateCookies` returns `isValid = true` exactly when every entry
of `requiredCookies` occurs, under exact case-sensitive string equality, among the
keys `name@domain` built from the observed cookies; and every required entry with
no matching key is a member of the returned `missingRequired`. -/
theorem C1_isValid_iff_required_present (cookies : List Cookie) (expectations : ExpectedCookies) :
    ((validateCookies cookies expectations).isValid = true ↔
        ∀ r ∈ expectations.requiredCookies, r ∈ cookies.map cookieKey) ∧
    (∀ r ∈ expectations.requiredCookies, r ∉ cookies.map cookieKey →
        r ∈ (validateCookies cookies expectations).missingRequired) := by
  constructor
  · simp [validateCookies, List.length_eq_zero, List.filter_eq_nil_iff]
  · intro r hr hnot
    simp [validateCookies, List.mem_filter, hr, hnot]
    intro x hx he
    exact hnot (List.mem_map.mpr ⟨x, hx, he⟩)

/-- Witness for C1: a lone required key not matched by any observed cookie appears
in `missingRequired`. -/
theorem C1_witness :
    "x@d" ∈ (validateCookies [] { requiredCookies := ["x@d"], optionalCookies := none }).missingRequired :=
  (C1_isValid_iff_required_present [] { requiredCookies := ["x@d"], optionalCookies := none }).2
    "x@d" (by decide) (by decide)

/-- Membership congruence for `validateCookies`: the result only depends on which
strings occur among the observed `name@domain` keys. -/
lemma validateCookies_congr_keys {cookies cookies2 : List Cookie} (expectations : ExpectedCookies)
    (h : ∀ a : String, a ∈ cookies.map cookieKey ↔ a ∈ cookies2.map cookieKey) :
    validateCookies cookies expectations = validateCookies cookies2 expectations := by
  have hc : ∀ a : String,
      (cookies.map cookieKey).contains a = (cookies2.map cookieKey).contains a := by
    intro a
    by_cases hm : a ∈ cookies2.map cookieKey
    · have hm1 : a ∈ cookies.map cookieKey := (h a).mpr hm
      simp [List.contains, hm, hm1]
    · have hm1 : a ∉ cookies.map cookieKey := fun hx => hm ((h a).mp hx)
      simp [List.contains, hm, hm1]
  have hfil : expectations.requiredCookies.filter (fun r => !((cookies.map cookieKey).contains r)) =
      expectations.requiredCookies.filter (fun r => !((cookies2.map cookieKey).contains r)) :=
    List.filter_congr (fun r _ => by rw [hc r])
  have hcount : ∀ opts : List String,
      opts.countP (fun o => (cookies.map cookieKey).contains o) =
        opts.countP (fun o => (cookies2.map cookieKey).contains o) :=
    fun opts => List.countP_congr (fun o _ => by rw [hc o])
  cases hopt : expectations.optionalCookies with
  | none => simp only [validateCookies, hopt, hfil]
  | some opts => simp only [validateCookies, hopt, hfil, hcount opts]

/-- Claim C6: `validateCookies` returns the same `ValidationResult` on every
permutation of the observed cookie list; `missingRequired` lists the missing
required entries in `requiredCookies` declaration order (it is a sublist of the
declared sequence), independent of observed-cookie order and duplicates. -/
theorem C6_order_and_duplicate_invariance (cookies cookies2 : List Cookie)
    (expectations : ExpectedCookies) (hperm : cookies.Perm cookies2) :
    validateCookies cookies expectations = validateCookies cookies2 expectations ∧
    (validateCookies cookies expectations).missingRequired.Sublist expectations.requiredCookies ∧
    ∀ c : Cookie, validateCookies (c :: c :: cookies) expectations =
      validateCookies (c :: cookies) expectations := by
  refine ⟨?_, ?_, ?_⟩
  · exact validateCookies_congr_keys expectations
      (fun a => (hperm.map cookieKey).mem_iff)
  · simp only [validateCookies]
    exact List.filter_sublist _
  · intro c
    apply validateCookies_congr_keys
    intro a
    simp only [List.map_cons, List.mem_cons]
    tauto

/-- Witness for C6: swapping two observed cookies leaves the result unchanged. -/
theorem C6_witness :
    validateCookies
      [{ name := "a", domain := "d", value := "" }, { name := "b", domain := "d", value := "" }]
      { requiredCookies := ["a@d", "c@d"], optionalCookies := none } =
    validateCookies
      [{ name := "b", domain := "d", value := "" }, { name := "a", domain := "d", value := "" }]
      { requiredCookies := ["a@d", "c@d"], optionalCookies := none } :=
  (C6_order_and_duplicate_invariance _ _ _
    (List.Perm.swap { name := "b", domain := "d", value := "" }
      { name := "a", domain := "d", value := "" } [])).1

/-- Claim C8: `totalOptional` equals the length of `optionalCookies`, or 0 when
that field is absent (treated as the empty sequence), regardless of the observed
cookies; `foundOptional` is the count of optional entries whose `name@domain` key
appears among the observed cookies. -/
theorem C8_optional_accounting (cookies cookies2 : List Cookie) (expectations : ExpectedCookies) :
    (validateCookies cookies expectations).totalOptional =
      (expectations.optionalCookies.getD []).length ∧
    (expectations.optionalCookies = none →
      (validateCookies cookies expectations).totalOptional = 0) ∧
    (validateCookies cookies expectations).totalOptional =
      (validateCookies cookies2 expectations).totalOptional ∧
    (validateCookies cookies expectations).foundOptional =
      (expectations.optionalCookies.getD []).countP
        (fun o => (cookies.map cookieKey).contains o) := by
  cases hopt : expectations.optionalCookies with
  | none => simp [validateCookies, hopt]
  | some opts =>
    have hlen : (if (opts.length == 0) = true then 0 else opts.length) = opts.length := by
      split
      next h => simp only [beq_iff_eq] at h; omega
      next => rfl
    refine ⟨?_, by simp [hopt], ?_, ?_⟩
    · simp only [validateCookies, hopt, Option.getD_some]
      exact hlen
    · simp only [validateCookies, hopt]
    · simp only [validateCookies, hopt, Option.getD_some]

/-- Witness for C8: an absent `optionalCookies` field yields `totalOptional = 0`. -/
theorem C8_witness :
    (validateCookies [] { requiredCookies := [], optionalCookies := none }).totalOptional = 0 :=
  (C8_optional_accounting [] [] { requiredCookies := [], optionalCookies := none }).2.1 rfl

/-- Counterexample to claim C2: two consent-cookie values differing exactly in the
token `functional:yes` decode to distinct eight-flag records under the spec-worded
decoder, yet the source decoder returns identical results on them — so the source
decoder's output does not cover a `functional` flag computed by substring
containment, hence does not cover all eight keys. -/
theorem C2_counterexample :
    validateConsentCookieContent
        [{ name := "cookieyes-consent", domain := "d", value := "functional:yes" }] =
      validateConsentCookieContent
        [{ name := "cookieyes-consent", domain := "d", value := "functional:no" }] ∧
    decodeConsentFlagsSpec "functional:yes" ≠ decodeConsentFlagsSpec "functional:no" := by
  decide

/-- Claim C2 as amended: `validateConsentCookieContent` always returns a fully
populated `ConsentCookieContent` covering the three keys consent, action and
necessary, each flag computed as literal substring containment of `key:yes` in
the raw value of the first cookie named `cookieyes-consent`; with no such cookie,
or with an empty raw value, every flag decodes to `false`. -/
theorem C2_three_flag_decoder (cookies : List Cookie) :
    (cookies.find? (fun cookie => cookie.name == CONSENT_COOKIE_NAME) = none →
        validateConsentCookieContent cookies =
          { hasYesConsent := false, hasYesAction := false, hasYesNecessary := false }) ∧
    (∀ c, cookies.find? (fun cookie => cookie.name == CONSENT_COOKIE_NAME) = some c →
        validateConsentCookieContent cookies =
          { hasYesConsent := strIncludes c.value "consent:yes"
            hasYesAction := strIncludes c.value "action:yes"
            hasYesNecessary := strIncludes c.value "necessary:yes" }) ∧
    (∀ c, cookies.find? (fun cookie => cookie.name == CONSENT_COOKIE_NAME) = some c →
        c.value = "" →
        validateConsentCookieContent cookies =
          { hasYesConsent := false, hasYesAction := false, hasYesNecessary := false }) := by
  refine ⟨?_, ?_, ?_⟩
  · intro h
    simp only [validateConsentCookieContent, h]
  · intro c h
    simp only [validateConsentCookieContent, h]
  · intro c h hv
    simp only [validateConsentCookieContent, h, hv]
    decide

/-- Witness for the amended C2: a present consent cookie with empty value decodes
to all-false flags. -/
theorem C2_witness :
    validateConsentCookieContent [{ name := "cookieyes-consent", domain := "d", value := "" }] =
      { hasYesConsent := false, hasYesAction := false, hasYesNecessary := false } :=
  (C2_three_flag_decoder [{ name := "cookieyes-consent", domain := "d", value := "" }]).2.2
    { name := "cookieyes-consent", domain := "d", value := "" } (by decide) rfl

/-- Claim C10: with several cookies named `cookieyes-consent` in the list, the
decoder computes its flags from the value of the first such cookie in list order
only, and cookies with any other name never influence the result (in particular,
a list with no consent-named cookie decodes to all-false regardless of content). -/
theorem C10_first_consent_cookie_wins (l1 l2 : List Cookie) (c : Cookie)
    (hc : c.name = CONSENT_COOKIE_NAME)
    (hl : ∀ c2 ∈ l1, c2.name ≠ CONSENT_COOKIE_NAME) :
    validateConsentCookieContent (l1 ++ c :: l2) = validateConsentCookieContent [c] ∧
    ∀ l : List Cookie, (∀ c2 ∈ l, c2.name ≠ CONSENT_COOKIE_NAME) →
      validateConsentCookieContent l =
        { hasYesConsent := false, hasYesAction := false, hasYesNecessary := false } := by
  have h2 : (c.name == CONSENT_COOKIE_NAME) = true := by simp [hc]
  constructor
  · have h1 : l1.find? (fun cookie => cookie.name == CONSENT_COOKIE_NAME) = none :=
      List.find?_eq_none.mpr (fun x hx => by simp [hl x hx])
    have h3 : List.find? (fun cookie => cookie.name == CONSENT_COOKIE_NAME) (c :: l2) = some c :=
      List.find?_cons_of_pos l2 h2
    have h4 : List.find? (fun cookie => cookie.name == CONSENT_COOKIE_NAME) [c] = some c :=
      List.find?_cons_of_pos [] h2
    simp only [validateConsentCookieContent, List.find?_append, h1, Option.none_or, h3, h4]
  · intro l hlz
    have h1 : l.find? (fun cookie => cookie.name == CONSENT_COOKIE_NAME) = none :=
      List.find?_eq_none.mpr (fun x hx => by simp [hlz x hx])
    simp only [validateConsentCookieContent, h1]

/-- Witness for C10: the second consent-named cookie and a differently named first
cookie are both ignored. -/
theorem C10_witness :
    validateConsentCookieContent
        [{ name := "x", domain := "d", value := "consent:yes" },
         { name := "cookieyes-consent", domain := "d", value := "action:yes" },
         { name := "cookieyes-consent", domain := "d2", value := "consent:yes" }] =
      validateConsentCookieContent
        [{ name := "cookieyes-consent", domain := "d", value := "action:yes" }] :=
  (C10_first_consent_cookie_wins
      [{ name := "x", domain := "d", value := "consent:yes" }]
      [{ name := "cookieyes-consent", domain := "d2", value := "consent:yes" }]
      { name := "cookieyes-consent", domain := "d", value := "action:yes" }
      rfl (by decide)).1

/-- The six environment identifiers registered in `COOKIE_EXPECTATIONS`, in
declaration order. -/
def registeredProjects : List String :=
  ["chromium", "webkit", "firefox", "Microsoft Edge", "Mobile Chrome", "Mobile Safari"]

/-- Claim C7: the registry lookup `getExpectedCookies` (a pure function of its
argument by construction) returns the registered `ExpectedCookies` record for a
registered environment identifier and `null` (embedded as `none`) for any
unregistered identifier; on that `NotFound` outcome the calling workflow logs a
warning and returns without performing validation and without raising a test
failure. -/
theorem C7_registry_lookup_and_skip :
    (∀ p e, (p, e) ∈ COOKIE_EXPECTATIONS → getExpectedCookies p = some e) ∧
    (∀ p, p ∉ registeredProjects → getExpectedCookies p = none) ∧
    (∀ p cookies, getExpectedCookies p = none →
      workflowValidateCookies p cookies =
        WorkflowOutcome.skippedWithWarning ("No validation rules defined for project: " ++ p)) := by
  refine ⟨?_, ?_, ?_⟩
  · intro p e hm
    simp only [COOKIE_EXPECTATIONS, List.mem_cons, List.not_mem_nil, or_false,
      Prod.mk.injEq] at hm
    rcases hm with ⟨rfl, rfl⟩ | ⟨rfl, rfl⟩ | ⟨rfl, rfl⟩ | ⟨rfl, rfl⟩ | ⟨rfl, rfl⟩ | ⟨rfl, rfl⟩ <;>
      decide
  · intro p hp
    simp only [registeredProjects, List.mem_cons, List.not_mem_nil, or_false, not_or] at hp
    obtain ⟨h1, h2, h3, h4, h5, h6⟩ := hp
    have f1 : COOKIE_EXPECTATIONS.find? (fun entry => entry.fst == p) = none := by
      rw [List.find?_eq_none]
      intro x hx
      simp only [COOKIE_EXPECTATIONS, List.mem_cons, List.not_mem_nil, or_false] at hx
      rcases hx with rfl | rfl | rfl | rfl | rfl | rfl <;>
        (simp only [beq_iff_eq]; intro h; subst h; simp_all)
    simp [getExpectedCookies, f1]
  · intro p cookies h
    simp [workflowValidateCookies, h]

/-- Witness for C7: the identifier opera is unregistered, so the workflow skips
validation with the logged warning. -/
theorem C7_witness :
    getExpectedCookies "opera" = none ∧
    workflowValidateCookies "opera" [] =
      WorkflowOutcome.skippedWithWarning "No validation rules defined for project: opera" := by
  have hnone : getExpectedCookies "opera" = none :=
    C7_registry_lookup_and_skip.2.1 "opera" (by decide)
  exact ⟨hnone, C7_registry_lookup_and_skip.2.2 "opera" [] hnone⟩
